import Mathlib

/-!
Shallow embedding of `src/channel.c`: a thread-safe, fixed-capacity message
channel with blocking and non-blocking send/receive, close semantics, and a
multi-channel select.  The channel state (`chan_t`) is passed and returned
explicitly; the mutex and the two condition variables carry no sequential
state and are therefore not fields of the model.  A blocking call that parks
in `pthread_cond_wait` is modelled by a dedicated `wait` outcome, and the
loop body that a woken thread re-runs after retaking the mutex is exposed as
its own function (`send_loop`, `recv_loop`) so that interleavings with other
threads can be expressed by re-entering the loop on the state the woken
thread observes.  `sem_post` calls are counted in the result.
-/

set_option autoImplicit false

/-- C runtime values handed through the channel as `void*`.  `nullPtr` is the
NULL pointer; `intVal n` stands for an ordinary payload pointer; `addrOfData i`
is the address of the `data` field of select descriptor number `i`
(the C expression taking the address of that field), which is a C value
distinct from the contents of the field itself. -/
inductive CVal where
  | nullPtr : CVal
  | intVal : Nat → CVal
  | addrOfData : Nat → CVal
deriving DecidableEq, Repr

/-- Modelled from the spec: the status codes of `enum chan_status`.  The enum
is declared in `channel.h`, which is not under `src/`; the constructor names
are exactly the ones `channel.c` uses. -/
inductive chan_status where
  | SUCCESS : chan_status
  | WOULDBLOCK : chan_status
  | CLOSED_ERROR : chan_status
  | OTHER_ERROR : chan_status
  | DESTROY_ERROR : chan_status
deriving DecidableEq, Repr

/-- Modelled from the spec: the external Buffer collaborator (spec section 6):
a fixed-capacity FIFO container of opaque values exposing capacity, current
size, try-insert and try-remove.  The list holds the buffered values oldest
first. -/
structure buffer_t where
  cap : Nat
  data : List CVal
deriving DecidableEq, Repr

/-- Modelled from the spec: `buffer_create(capacity)` — an empty FIFO with the
given fixed capacity. -/
def buffer_create (size : Nat) : buffer_t := ⟨size, []⟩

/-- Modelled from the spec: `capacity()`. -/
def buffer_capacity (b : buffer_t) : Nat := b.cap

/-- Modelled from the spec: `current_size()`. -/
def buffer_current_size (b : buffer_t) : Nat := b.data.length

/-- Modelled from the spec: `try_insert(value) -> bool`; on success the value
joins the back of the FIFO, `none` models a failed insertion (buffer already
full). -/
def buffer_add (v : CVal) (b : buffer_t) : Option buffer_t :=
  if b.data.length < b.cap then some ⟨b.cap, b.data ++ [v]⟩ else none

/-- Modelled from the spec: `try_remove() -> value-or-empty`; removes the
oldest element, yielding the C NULL pointer when the buffer is empty. -/
def buffer_remove (b : buffer_t) : CVal × buffer_t :=
  match b.data with
  | [] => (CVal.nullPtr, b)
  | v :: rest => (v, ⟨b.cap, rest⟩)

/-- Sequential state of a `chan_t` (fields as in `channel.c`): the owned
buffer, the `open` flag, and whether a select notification semaphore is
currently registered in `channel->semaphore` (`false` models the NULL
handle). -/
structure chan_t where
  buffer : buffer_t
  «open» : Bool
  semaphore : Bool
deriving DecidableEq, Repr

/-- Lines 5-21 of `channel.c`: `channel_create`.  Size 0 yields NULL;
otherwise the channel starts with an empty buffer, `open = 1` and no
semaphore registered. -/
def channel_create (size : Nat) : Option chan_t :=
  if size == 0 then none
  else some ⟨buffer_create size, true, false⟩

/-- Outcome of running `channel_send` from some control point: either the
call returns (`ret`) with its status, the final channel state, and the number
of `sem_post` calls it made, or the calling thread parks in
`pthread_cond_wait` on `channel->send` (`wait`).  A parked sender resumes by
re-running `send_loop` on whatever channel state it observes after
reacquiring the mutex. -/
inductive SendResult where
  | ret : chan_status → chan_t → Nat → SendResult
  | wait : chan_t → SendResult
deriving DecidableEq, Repr

/-- Lines 49-58 of `channel.c`, textually identical to lines 67-76: the
insertion step shared by the blocking and non-blocking branches.  The add is
guarded by a re-check of `channel->open`; when the channel is no longer open
the add is skipped and control falls through to the semaphore post and the
final `return SUCCESS`.  The trailing `pthread_cond_signal` carries no
sequential state. -/
def send_insert (channel : chan_t) (data : CVal) : SendResult :=
  if channel.«open» then
    match buffer_add data channel.buffer with
    | none => SendResult.ret chan_status.OTHER_ERROR channel 0
    | some b =>
        let c := { channel with buffer := b }
        SendResult.ret chan_status.SUCCESS c (if c.semaphore then 1 else 0)
  else
    SendResult.ret chan_status.SUCCESS channel (if channel.semaphore then 1 else 0)

/-- Lines 41-58 of `channel.c`: the blocking-send loop, entered at the
`while` condition test; this is also the control point at which a woken
sender resumes, applied to the channel state it sees after retaking the
mutex.  While the buffer is full: a closed channel yields `CLOSED_ERROR`,
an open one parks the thread. -/
def send_loop (channel : chan_t) (data : CVal) : SendResult :=
  if buffer_capacity channel.buffer == buffer_current_size channel.buffer then
    if channel.«open» then SendResult.wait channel
    else SendResult.ret chan_status.CLOSED_ERROR channel 0
  else send_insert channel data

/-- Lines 31-81 of `channel.c`: `channel_send`.  Closedness is checked at
entry; the blocking branch runs the wait loop, the non-blocking branch fails
with `WOULDBLOCK` on a full buffer and otherwise inserts. -/
def channel_send (channel : chan_t) (data : CVal) (blocking : Bool) : SendResult :=
  if channel.«open» then
    if blocking then send_loop channel data
    else
      if buffer_capacity channel.buffer == buffer_current_size channel.buffer then
        SendResult.ret chan_status.WOULDBLOCK channel 0
      else send_insert channel data
  else SendResult.ret chan_status.CLOSED_ERROR channel 0

/-- Outcome of running `channel_receive` from some control point: `ret`
carries the status, the final channel state, what was stored through the
`data` out-pointer (`none` when nothing was stored), and the number of
`sem_post` calls; `wait` parks the thread on `channel->recv`, to resume via
`recv_loop`. -/
inductive RecvResult where
  | ret : chan_status → chan_t → Option CVal → Nat → RecvResult
  | wait : chan_t → RecvResult
deriving DecidableEq, Repr

/-- Lines 108-117 of `channel.c`, textually identical to lines 126-135: the
removal step shared by the blocking and non-blocking branches.  `dataIsNull`
records whether the caller passed a NULL `data` out-pointer: the failure
check in the source tests that pointer parameter itself, not the value
`buffer_remove` returned, so `OTHER_ERROR` arises exactly when the parameter
is NULL.  When the channel is no longer open the removal is skipped and the
call still returns `SUCCESS`. -/
def recv_body (channel : chan_t) (dataIsNull : Bool) : RecvResult :=
  if channel.«open» then
    let p := buffer_remove channel.buffer
    let c := { channel with buffer := p.2 }
    if dataIsNull then RecvResult.ret chan_status.OTHER_ERROR c (some p.1) 0
    else RecvResult.ret chan_status.SUCCESS c (some p.1) (if c.semaphore then 1 else 0)
  else
    RecvResult.ret chan_status.SUCCESS channel none (if channel.semaphore then 1 else 0)

/-- Lines 101-117 of `channel.c`: the blocking-receive loop, entered at the
`while` condition test; also the resume point of a woken receiver.  While the
buffer is empty: a closed channel yields `CLOSED_ERROR`, an open one parks
the thread. -/
def recv_loop (channel : chan_t) (dataIsNull : Bool) : RecvResult :=
  if buffer_current_size channel.buffer == 0 then
    if channel.«open» then RecvResult.wait channel
    else RecvResult.ret chan_status.CLOSED_ERROR channel none 0
  else recv_body channel dataIsNull

/-- Lines 91-142 of `channel.c`: `channel_receive`.  Closedness is checked at
entry, before the buffer is consulted; the non-blocking branch fails with
`WOULDBLOCK` on an empty buffer. -/
def channel_receive (channel : chan_t) (dataIsNull : Bool) (blocking : Bool) : RecvResult :=
  if channel.«open» then
    if blocking then recv_loop channel dataIsNull
    else
      if buffer_current_size channel.buffer == 0 then
        RecvResult.ret chan_status.WOULDBLOCK channel none 0
      else recv_body channel dataIsNull
  else RecvResult.ret chan_status.CLOSED_ERROR channel none 0

/-- Result of `channel_close`: status, final channel state, and number of
`sem_post` calls made. -/
structure CloseResult where
  status : chan_status
  channel : chan_t
  posts : Nat
deriving DecidableEq, Repr

/-- Lines 150-171 of `channel.c`: `channel_close`.  Already closed yields
`CLOSED_ERROR` with no mutation; otherwise the flag is cleared, both
condition variables are broadcast (no sequential state), the registered
semaphore — if any — is posted once, and the call returns `SUCCESS`. -/
def channel_close (channel : chan_t) : CloseResult :=
  if channel.«open» then
    let c := { channel with «open» := false }
    ⟨chan_status.SUCCESS, c, if c.semaphore then 1 else 0⟩
  else ⟨chan_status.CLOSED_ERROR, channel, 0⟩

/-- Lines 178-194 of `channel.c`: `channel_destroy`.  The function only reads
the `open` flag and never writes any channel field; freeing memory is not
observable in the sequential model, so the channel state is returned
unchanged alongside the status. -/
def channel_destroy (channel : chan_t) : chan_status × chan_t :=
  if channel.«open» then (chan_status.DESTROY_ERROR, channel)
  else (chan_status.SUCCESS, channel)

/-- A select descriptor (`select_t`, declared in `channel.h`, which is not
under `src/`; the fields are the ones `channel.c` reads): the channel —
an index into the ambient list of channel states, standing for the C channel
pointer — the operation kind `is_send`, and the payload/destination slot
`data`. -/
structure select_t where
  channel : Nat
  is_send : Bool
  data : CVal
deriving DecidableEq, Repr

/-- Result of a committed select: the delegated operation status, the value
stored into `*selected_index`, and the updated channel states. -/
structure SelectResult where
  status : chan_status
  selected_index : Nat
  chans : List chan_t
deriving DecidableEq, Repr

/-- Outcome of `channel_select` in the sequential model: `ret` when a scan
found a ready descriptor and the delegated call returned; `blocked` when a
full scan found nothing ready, so the thread parks in `sem_wait` on the
zero-count semaphore (no other thread exists to post it), or the delegated
blocking call itself parked. -/
inductive SelectOutcome where
  | ret : SelectResult → SelectOutcome
  | blocked : List chan_t → SelectOutcome
deriving DecidableEq, Repr

/-- Lines 208-212 of `channel.c`: record the freshly allocated semaphore as
the notification handle of every listed channel, taking one channel lock at
a time. -/
def select_register : List chan_t → List select_t → List chan_t
  | chans, [] => chans
  | chans, d :: rest =>
      let chans1 :=
        match chans[d.channel]? with
        | some c => chans.set d.channel { c with semaphore := true }
        | none => chans
      select_register chans1 rest

/-- Lines 216-226 of `channel.c`: the readiness test the scan applies to one
descriptor under that channel's lock: a send descriptor is ready when the
buffer has spare capacity, a receive descriptor when the buffer is
non-empty.  The `open` flag is not consulted here. -/
def desc_ready (chans : List chan_t) (d : select_t) : Bool :=
  match chans[d.channel]? with
  | none => false
  | some c =>
      if d.is_send then buffer_current_size c.buffer < buffer_capacity c.buffer
      else 0 < buffer_current_size c.buffer

/-- Lines 219-221 and 227-229 of `channel.c`: commit to descriptor `i`:
store `i` into `*selected_index`, release the channel lock, and delegate to
the ordinary blocking call.  A send descriptor passes the ADDRESS of the
descriptor's `data` field — `CVal.addrOfData i` — as the value to send,
because the source takes the address of `channel_list[i].data` there; a
receive descriptor passes that same address as its (non-NULL) out-pointer. -/
def select_perform (chans : List chan_t) (d : select_t) (i : Nat) : SelectOutcome :=
  match chans[d.channel]? with
  | none => SelectOutcome.blocked chans
  | some c =>
      if d.is_send then
        match channel_send c (CVal.addrOfData i) true with
        | SendResult.ret st c1 _ =>
            SelectOutcome.ret ⟨st, i, chans.set d.channel c1⟩
        | SendResult.wait c1 => SelectOutcome.blocked (chans.set d.channel c1)
      else
        match channel_receive c false true with
        | RecvResult.ret st c1 _ _ =>
            SelectOutcome.ret ⟨st, i, chans.set d.channel c1⟩
        | RecvResult.wait c1 => SelectOutcome.blocked (chans.set d.channel c1)

/-- Lines 214-234 of `channel.c`: one scan of the descriptor list in order,
with `i` the running index.  Reaching the end of the list means the full
scan found nothing ready, so the call parks in `sem_wait(semaphore)`
(line 233). -/
def select_loop : List chan_t → Nat → List select_t → SelectOutcome
  | chans, _, [] => SelectOutcome.blocked chans
  | chans, i, d :: rest =>
      if desc_ready chans d then select_perform chans d i
      else select_loop chans (i + 1) rest

/-- Lines 203-237 of `channel.c`: `channel_select` — allocate the shared
zero-count semaphore, register it on every listed channel, then scan the
descriptor list from index 0. -/
def channel_select (chans : List chan_t) (channel_list : List select_t) : SelectOutcome :=
  select_loop (select_register chans channel_list) 0 channel_list

/-- The channel state carried by a send outcome, whether returned or
parked. -/
def SendResult.chan : SendResult → chan_t
  | SendResult.ret _ c _ => c
  | SendResult.wait c => c

/-- The channel state carried by a receive outcome, whether returned or
parked. -/
def RecvResult.chan : RecvResult → chan_t
  | RecvResult.ret _ c _ _ => c
  | RecvResult.wait c => c

/-- Whether a receive outcome is a returned `OTHER_ERROR`. -/
def RecvResult.isOtherError : RecvResult → Bool
  | RecvResult.ret st _ _ _ => st == chan_status.OTHER_ERROR
  | RecvResult.wait _ => false

/-- The channel states carried by a select outcome. -/
def SelectOutcome.chans : SelectOutcome → List chan_t
  | SelectOutcome.ret r => r.chans
  | SelectOutcome.blocked cs => cs

/-- Run a sequence of blocking sends; the result is `some` exactly when every
send returned `SUCCESS`. -/
def sendSeq : chan_t → List CVal → Option chan_t
  | c, [] => some c
  | c, v :: vs =>
      match channel_send c v true with
      | SendResult.ret chan_status.SUCCESS c1 _ => sendSeq c1 vs
      | _ => none

/-- Run `n` blocking receives with a non-NULL out-pointer, collecting the
received values in order; the result is `some` exactly when every receive
returned `SUCCESS` and stored a value. -/
def recvSeq : chan_t → Nat → Option (List CVal)
  | _, 0 => some []
  | c, n + 1 =>
      match channel_receive c false true with
      | RecvResult.ret chan_status.SUCCESS c1 (some v) _ =>
          (recvSeq c1 n).map (fun vs => v :: vs)
      | _ => none

/-- Claim C3: a `channel_receive` call, blocking or non-blocking, on a closed
channel returns `CLOSED_ERROR`, stores nothing through the out-pointer, and
leaves the channel state unchanged — whatever the buffer still contains. -/
theorem receive_on_closed_channel (c : chan_t) (dataIsNull blocking : Bool)
    (h : c.«open» = false) :
    channel_receive c dataIsNull blocking =
      RecvResult.ret chan_status.CLOSED_ERROR c none 0 := by
  simp [channel_receive, h]

/-- Witness for C3 at a concrete closed channel that still buffers two unread
values. -/
theorem receive_on_closed_channel_witness :
    channel_receive ⟨⟨2, [CVal.intVal 9, CVal.intVal 8]⟩, false, false⟩ false true =
      RecvResult.ret chan_status.CLOSED_ERROR
        ⟨⟨2, [CVal.intVal 9, CVal.intVal 8]⟩, false, false⟩ none 0 :=
  receive_on_closed_channel ⟨⟨2, [CVal.intVal 9, CVal.intVal 8]⟩, false, false⟩ false true rfl

/-- Claim C6: a non-blocking `channel_send` on an open channel whose buffer
is full returns `WOULDBLOCK`, posts no semaphore, and returns the channel
state — buffer, open flag and notify handle — unchanged. -/
theorem nonblocking_send_full_wouldblock (c : chan_t) (v : CVal)
    (hopen : c.«open» = true)
    (hfull : buffer_current_size c.buffer = buffer_capacity c.buffer) :
    channel_send c v false = SendResult.ret chan_status.WOULDBLOCK c 0 := by
  simp [channel_send, hopen, hfull]

/-- Witness for C6 at a concrete full channel of capacity 1 with a registered
semaphore. -/
theorem nonblocking_send_full_wouldblock_witness :
    channel_send ⟨⟨1, [CVal.intVal 3]⟩, true, true⟩ (CVal.intVal 4) false =
      SendResult.ret chan_status.WOULDBLOCK ⟨⟨1, [CVal.intVal 3]⟩, true, true⟩ 0 :=
  nonblocking_send_full_wouldblock ⟨⟨1, [CVal.intVal 3]⟩, true, true⟩ (CVal.intVal 4)
    rfl rfl

/-- Claim C4: the literal capacity-2 scenario, step by step: each equation's
input state is the previous equation's output state, and the final state
still buffers the values 2 and 3. -/
theorem literal_scenario :
    channel_create 2 = some ⟨⟨2, []⟩, true, false⟩ ∧
    channel_send ⟨⟨2, []⟩, true, false⟩ (CVal.intVal 1) true =
      SendResult.ret chan_status.SUCCESS ⟨⟨2, [CVal.intVal 1]⟩, true, false⟩ 0 ∧
    channel_send ⟨⟨2, [CVal.intVal 1]⟩, true, false⟩ (CVal.intVal 2) true =
      SendResult.ret chan_status.SUCCESS
        ⟨⟨2, [CVal.intVal 1, CVal.intVal 2]⟩, true, false⟩ 0 ∧
    channel_send ⟨⟨2, [CVal.intVal 1, CVal.intVal 2]⟩, true, false⟩ (CVal.intVal 3) false =
      SendResult.ret chan_status.WOULDBLOCK
        ⟨⟨2, [CVal.intVal 1, CVal.intVal 2]⟩, true, false⟩ 0 ∧
    channel_receive ⟨⟨2, [CVal.intVal 1, CVal.intVal 2]⟩, true, false⟩ false true =
      RecvResult.ret chan_status.SUCCESS ⟨⟨2, [CVal.intVal 2]⟩, true, false⟩
        (some (CVal.intVal 1)) 0 ∧
    channel_send ⟨⟨2, [CVal.intVal 2]⟩, true, false⟩ (CVal.intVal 3) false =
      SendResult.ret chan_status.SUCCESS
        ⟨⟨2, [CVal.intVal 2, CVal.intVal 3]⟩, true, false⟩ 0 ∧
    channel_close ⟨⟨2, [CVal.intVal 2, CVal.intVal 3]⟩, true, false⟩ =
      ⟨chan_status.SUCCESS, ⟨⟨2, [CVal.intVal 2, CVal.intVal 3]⟩, false, false⟩, 0⟩ ∧
    channel_receive ⟨⟨2, [CVal.intVal 2, CVal.intVal 3]⟩, false, false⟩ false false =
      RecvResult.ret chan_status.CLOSED_ERROR
        ⟨⟨2, [CVal.intVal 2, CVal.intVal 3]⟩, false, false⟩ none 0 := by
  decide

/-- Claim C1 is violated by the code: the interleaving below makes a blocking
send that waited on a full capacity-1 channel return `SUCCESS` without
inserting its value, after the channel was closed while it waited.  Step 1:
the sender parks because the buffer is full.  Step 2: a receiver drains the
one buffered value, waking the sender.  Step 3: before the sender retakes the
mutex, another thread closes the channel.  Step 4: the sender resumes the
loop, finds the buffer no longer full, skips the insert because the open
re-check fails, and still falls through to `return SUCCESS` — the final state
shows the buffer empty, so the value 7 was never inserted. -/
theorem blocking_send_closed_while_waiting_returns_success :
    channel_send ⟨⟨1, [CVal.intVal 1]⟩, true, false⟩ (CVal.intVal 7) true =
      SendResult.wait ⟨⟨1, [CVal.intVal 1]⟩, true, false⟩ ∧
    channel_receive ⟨⟨1, [CVal.intVal 1]⟩, true, false⟩ false true =
      RecvResult.ret chan_status.SUCCESS ⟨⟨1, []⟩, true, false⟩ (some (CVal.intVal 1)) 0 ∧
    channel_close ⟨⟨1, []⟩, true, false⟩ =
      ⟨chan_status.SUCCESS, ⟨⟨1, []⟩, false, false⟩, 0⟩ ∧
    send_loop ⟨⟨1, []⟩, false, false⟩ (CVal.intVal 7) =
      SendResult.ret chan_status.SUCCESS ⟨⟨1, []⟩, false, false⟩ 0 ∧
    CVal.intVal 7 ∉ (⟨⟨1, []⟩, false, false⟩ : chan_t).buffer.data := by
  decide

/-- Claim C2 is violated by the code: a select that commits to a send
descriptor inserts the address of the descriptor's `data` field into the
buffer, not the payload the caller supplied.  Concretely: one open, empty,
capacity-1 channel and a single send descriptor with payload 5; select
returns `SUCCESS` with index 0, but the buffer ends up holding
`CVal.addrOfData 0` — the address of the slot — which differs from the
payload `CVal.intVal 5`. -/
theorem select_send_inserts_address_not_payload :
    channel_select [⟨⟨1, []⟩, true, false⟩] [⟨0, true, CVal.intVal 5⟩] =
      SelectOutcome.ret
        ⟨chan_status.SUCCESS, 0, [⟨⟨1, [CVal.addrOfData 0]⟩, true, true⟩]⟩ ∧
    CVal.addrOfData 0 ≠ CVal.intVal 5 := by
  decide

/-- Claim C7: closing an open channel returns `SUCCESS`, clears the open
flag and posts the registered notify semaphore exactly once when one is
registered (zero posts otherwise); closing an already-closed channel returns
`CLOSED_ERROR`, changes no state and posts nothing. -/
theorem close_open_then_closed (c : chan_t) :
    (c.«open» = true →
      channel_close c = ⟨chan_status.SUCCESS, { c with «open» := false },
        if c.semaphore then 1 else 0⟩) ∧
    (c.«open» = false →
      channel_close c = ⟨chan_status.CLOSED_ERROR, c, 0⟩) := by
  constructor <;> intro h <;> simp [channel_close, h]

/-- Witness for C7: a concrete open channel with a registered semaphore is
closed (one post), and the resulting closed channel refuses a second close
with no state change. -/
theorem close_open_then_closed_witness :
    channel_close ⟨⟨1, []⟩, true, true⟩ =
      ⟨chan_status.SUCCESS, ⟨⟨1, []⟩, false, true⟩, 1⟩ ∧
    channel_close ⟨⟨1, []⟩, false, true⟩ =
      ⟨chan_status.CLOSED_ERROR, ⟨⟨1, []⟩, false, true⟩, 0⟩ :=
  ⟨(close_open_then_closed ⟨⟨1, []⟩, true, true⟩).1 rfl,
   (close_open_then_closed ⟨⟨1, []⟩, false, true⟩).2 rfl⟩

/-- Claim C9: a `channel_receive` call whose `data` out-pointer is non-NULL
never returns `OTHER_ERROR`, whatever the channel state, the buffer contents
(including buffered NULL values) or the blocking mode — and likewise from the
wake-resume point of the blocking loop — because the post-remove failure
check tests the pointer parameter itself, which is non-NULL. -/
theorem receive_nonnull_never_other_error (c : chan_t) (blocking : Bool) :
    (channel_receive c false blocking).isOtherError = false ∧
    (recv_loop c false).isOtherError = false := by
  have hbody : ∀ ch : chan_t, (recv_body ch false).isOtherError = false := by
    intro ch
    by_cases h : ch.«open» = true <;>
      simp [recv_body, h, RecvResult.isOtherError]
  have hloop : (recv_loop c false).isOtherError = false := by
    by_cases hempty : buffer_current_size c.buffer = 0
    · by_cases h : c.«open» = true <;>
        simp [recv_loop, hempty, h, RecvResult.isOtherError]
    · simpa [recv_loop, hempty] using hbody c
  refine ⟨?_, hloop⟩
  by_cases h : c.«open» = true
  · cases blocking
    · by_cases hempty : buffer_current_size c.buffer = 0
      · simp [channel_receive, h, hempty, RecvResult.isOtherError]
      · simpa [channel_receive, h, hempty] using hbody c
    · simpa [channel_receive, h] using hloop
  · simp [channel_receive, h, RecvResult.isOtherError]

theorem send_insert_open_eq (c : chan_t) (v : CVal) :
    (send_insert c v).chan.«open» = c.«open» := by
  by_cases h : c.«open» = true
  · cases hb : buffer_add v c.buffer <;> simp [send_insert, h, hb, SendResult.chan]
  · simp [send_insert, h, SendResult.chan]

theorem send_loop_open_eq (c : chan_t) (v : CVal) :
    (send_loop c v).chan.«open» = c.«open» := by
  by_cases hfull : (buffer_capacity c.buffer == buffer_current_size c.buffer) = true
  · by_cases h : c.«open» = true <;> simp [send_loop, hfull, h, SendResult.chan]
  · simpa [send_loop, hfull] using send_insert_open_eq c v

theorem channel_send_open_eq (c : chan_t) (v : CVal) (blocking : Bool) :
    (channel_send c v blocking).chan.«open» = c.«open» := by
  by_cases h : c.«open» = true
  · cases blocking
    · by_cases hfull : (buffer_capacity c.buffer == buffer_current_size c.buffer) = true
      · simp [channel_send, h, hfull, SendResult.chan]
      · simpa [channel_send, h, hfull] using send_insert_open_eq c v
    · simpa [channel_send, h] using send_loop_open_eq c v
  · simp [channel_send, h, SendResult.chan]

theorem recv_body_open_eq (c : chan_t) (d : Bool) :
    (recv_body c d).chan.«open» = c.«open» := by
  by_cases h : c.«open» = true
  · cases d <;> simp [recv_body, h, RecvResult.chan]
  · simp [recv_body, h, RecvResult.chan]

theorem recv_loop_open_eq (c : chan_t) (d : Bool) :
    (recv_loop c d).chan.«open» = c.«open» := by
  by_cases hempty : (buffer_current_size c.buffer == 0) = true
  · by_cases h : c.«open» = true <;> simp [recv_loop, hempty, h, RecvResult.chan]
  · simpa [recv_loop, hempty] using recv_body_open_eq c d

theorem channel_receive_open_eq (c : chan_t) (d blocking : Bool) :
    (channel_receive c d blocking).chan.«open» = c.«open» := by
  by_cases h : c.«open» = true
  · cases blocking
    · by_cases hempty : (buffer_current_size c.buffer == 0) = true
      · simp [channel_receive, h, hempty, RecvResult.chan]
      · simpa [channel_receive, h, hempty] using recv_body_open_eq c d
    · simpa [channel_receive, h] using recv_loop_open_eq c d
  · simp [channel_receive, h, RecvResult.chan]

theorem select_register_getElem (l : List select_t) :
    ∀ (chans : List chan_t) (i : Nat) (c0 : chan_t), chans[i]? = some c0 →
      ∃ c1 : chan_t, (select_register chans l)[i]? = some c1 ∧
        c1.buffer = c0.buffer ∧ c1.«open» = c0.«open» := by
  induction l with
  | nil =>
      intro chans i c0 h
      exact ⟨c0, h, rfl, rfl⟩
  | cons d rest ih =>
      intro chans i c0 h
      cases hd : chans[d.channel]? with
      | none =>
          have hstep : select_register chans (d :: rest) = select_register chans rest := by
            simp [select_register, hd]
          rw [hstep]
          exact ih chans i c0 h
      | some cd =>
          have hstep : select_register chans (d :: rest) =
              select_register (chans.set d.channel { cd with semaphore := true }) rest := by
            simp [select_register, hd]
          rw [hstep]
          by_cases hij : d.channel = i
          · subst hij
            have hc0 : cd = c0 := by rw [hd] at h; exact Option.some.inj h
            have hlt : d.channel < chans.length := by
              by_contra hge
              rw [List.getElem?_eq_none (Nat.le_of_not_lt hge)] at hd
              exact Option.noConfusion hd
            have hset : (chans.set d.channel { cd with semaphore := true })[d.channel]? =
                some { cd with semaphore := true } := List.getElem?_set_self hlt
            obtain ⟨c1, h1, h2, h3⟩ := ih _ d.channel { cd with semaphore := true } hset
            subst hc0
            exact ⟨c1, h1, h2, h3⟩
          · have hset : (chans.set d.channel { cd with semaphore := true })[i]? =
                chans[i]? := List.getElem?_set_ne hij
            exact ih _ i c0 (hset.trans h)

theorem getElem_set_keeps_closed (chans : List chan_t) (m i : Nat) (x c0 cd : chan_t)
    (hi : chans[i]? = some c0) (hm : chans[m]? = some cd)
    (hx : x.«open» = cd.«open») (h : c0.«open» = false) :
    ∃ c1, (chans.set m x)[i]? = some c1 ∧ c1.«open» = false := by
  by_cases hmi : m = i
  · subst hmi
    have hcd : cd = c0 := by rw [hm] at hi; exact Option.some.inj hi
    have hlt : m < chans.length := by
      by_contra hge
      rw [List.getElem?_eq_none (Nat.le_of_not_lt hge)] at hm
      exact Option.noConfusion hm
    exact ⟨x, List.getElem?_set_self hlt, by rw [hx, hcd, h]⟩
  · exact ⟨c0, (List.getElem?_set_ne hmi).trans hi, h⟩

theorem select_perform_keeps_closed (chans : List chan_t) (d : select_t) (k i : Nat)
    (c0 : chan_t) (hi : chans[i]? = some c0) (h : c0.«open» = false) :
    ∃ c1, (select_perform chans d k).chans[i]? = some c1 ∧ c1.«open» = false := by
  cases hd : chans[d.channel]? with
  | none =>
      refine ⟨c0, ?_, h⟩
      simp [select_perform, hd, SelectOutcome.chans, hi]
  | some cd =>
      by_cases hs : d.is_send = true
      · cases hr : channel_send cd (CVal.addrOfData k) true with
        | ret st c1n posts =>
            have hx : c1n.«open» = cd.«open» := by
              have hpres := channel_send_open_eq cd (CVal.addrOfData k) true
              rw [hr] at hpres
              exact hpres
            obtain ⟨c1, h1, h2⟩ := getElem_set_keeps_closed chans d.channel i c1n c0 cd hi hd hx h
            refine ⟨c1, ?_, h2⟩
            simpa [select_perform, hd, hs, hr, SelectOutcome.chans] using h1
        | wait c1n =>
            have hx : c1n.«open» = cd.«open» := by
              have hpres := channel_send_open_eq cd (CVal.addrOfData k) true
              rw [hr] at hpres
              exact hpres
            obtain ⟨c1, h1, h2⟩ := getElem_set_keeps_closed chans d.channel i c1n c0 cd hi hd hx h
            refine ⟨c1, ?_, h2⟩
            simpa [select_perform, hd, hs, hr, SelectOutcome.chans] using h1
      · cases hr : channel_receive cd false true with
        | ret st c1n w posts =>
            have hx : c1n.«open» = cd.«open» := by
              have hpres := channel_receive_open_eq cd false true
              rw [hr] at hpres
              exact hpres
            obtain ⟨c1, h1, h2⟩ := getElem_set_keeps_closed chans d.channel i c1n c0 cd hi hd hx h
            refine ⟨c1, ?_, h2⟩
            simpa [select_perform, hd, hs, hr, SelectOutcome.chans] using h1
        | wait c1n =>
            have hx : c1n.«open» = cd.«open» := by
              have hpres := channel_receive_open_eq cd false true
              rw [hr] at hpres
              exact hpres
            obtain ⟨c1, h1, h2⟩ := getElem_set_keeps_closed chans d.channel i c1n c0 cd hi hd hx h
            refine ⟨c1, ?_, h2⟩
            simpa [select_perform, hd, hs, hr, SelectOutcome.chans] using h1

theorem select_loop_keeps_closed (l : List select_t) :
    ∀ (chans : List chan_t) (k i : Nat) (c0 : chan_t),
      chans[i]? = some c0 → c0.«open» = false →
      ∃ c1, (select_loop chans k l).chans[i]? = some c1 ∧ c1.«open» = false := by
  induction l with
  | nil =>
      intro chans k i c0 hi h
      exact ⟨c0, hi, h⟩
  | cons d rest ih =>
      intro chans k i c0 hi h
      by_cases hr : desc_ready chans d = true
      · have hstep : select_loop chans k (d :: rest) = select_perform chans d k := by
          simp [select_loop, hr]
        rw [hstep]
        exact select_perform_keeps_closed chans d k i c0 hi h
      · have hstep : select_loop chans k (d :: rest) = select_loop chans (k + 1) rest := by
          simp [select_loop, hr]
        rw [hstep]
        exact ih chans (k + 1) i c0 hi h

theorem channel_select_keeps_closed (chans : List chan_t) (l : List select_t) (i : Nat)
    (c0 : chan_t) (hi : chans[i]? = some c0) (h : c0.«open» = false) :
    ∃ c1, (channel_select chans l).chans[i]? = some c1 ∧ c1.«open» = false := by
  obtain ⟨cr, hr1, _, hr3⟩ := select_register_getElem l chans i c0 hi
  exact select_loop_keeps_closed l (select_register chans l) 0 i cr hr1 (hr3.trans h)

/-- Claim C10: a closed channel never reopens: if the `open` flag is false
before a send (from entry or from its wake-resume point), a receive
(likewise), a close, a destroy, or a select over a store of channels, it is
still false afterwards. -/
theorem open_flag_terminal (c : chan_t) (v : CVal) (dataIsNull blocking : Bool)
    (chans : List chan_t) (l : List select_t) (i : Nat)
    (hi : chans[i]? = some c) (h : c.«open» = false) :
    (channel_send c v blocking).chan.«open» = false ∧
    (send_loop c v).chan.«open» = false ∧
    (channel_receive c dataIsNull blocking).chan.«open» = false ∧
    (recv_loop c dataIsNull).chan.«open» = false ∧
    (channel_close c).channel.«open» = false ∧
    (channel_destroy c).2.«open» = false ∧
    ∃ c1, (channel_select chans l).chans[i]? = some c1 ∧ c1.«open» = false := by
  refine ⟨?_, ?_, ?_, ?_, ?_, ?_, channel_select_keeps_closed chans l i c hi h⟩
  · rw [channel_send_open_eq]; exact h
  · rw [send_loop_open_eq]; exact h
  · rw [channel_receive_open_eq]; exact h
  · rw [recv_loop_open_eq]; exact h
  · simp [channel_close, h]
  · simp [channel_destroy, h]

/-- Witness for C10 at a concrete closed channel, also placed in a
single-channel store under a select with one send descriptor. -/
theorem open_flag_terminal_witness :
    (channel_send ⟨⟨1, []⟩, false, false⟩ (CVal.intVal 0) true).chan.«open» = false ∧
    (send_loop ⟨⟨1, []⟩, false, false⟩ (CVal.intVal 0)).chan.«open» = false ∧
    (channel_receive ⟨⟨1, []⟩, false, false⟩ false true).chan.«open» = false ∧
    (recv_loop ⟨⟨1, []⟩, false, false⟩ false).chan.«open» = false ∧
    (channel_close ⟨⟨1, []⟩, false, false⟩).channel.«open» = false ∧
    (channel_destroy ⟨⟨1, []⟩, false, false⟩).2.«open» = false ∧
    ∃ c1, (channel_select [⟨⟨1, []⟩, false, false⟩]
        [⟨0, true, CVal.intVal 1⟩]).chans[0]? = some c1 ∧ c1.«open» = false :=
  open_flag_terminal ⟨⟨1, []⟩, false, false⟩ (CVal.intVal 0) false true
    [⟨⟨1, []⟩, false, false⟩] [⟨0, true, CVal.intVal 1⟩] 0 rfl rfl

theorem select_register_length (l : List select_t) :
    ∀ chans : List chan_t, (select_register chans l).length = chans.length := by
  induction l with
  | nil => intro chans; rfl
  | cons d rest ih =>
      intro chans
      cases hd : chans[d.channel]? <;> simp [select_register, hd, ih]

theorem desc_ready_select_register (chans : List chan_t) (l : List select_t)
    (d : select_t) :
    desc_ready (select_register chans l) d = desc_ready chans d := by
  cases hd : chans[d.channel]? with
  | none =>
      have hnone : (select_register chans l)[d.channel]? = none := by
        rw [List.getElem?_eq_none]
        rw [select_register_length l chans]
        exact List.getElem?_eq_none_iff.mp hd
      simp [desc_ready, hd, hnone]
  | some c0 =>
      obtain ⟨c1, h1, hbuf, _⟩ := select_register_getElem l chans d.channel c0 hd
      simp [desc_ready, hd, h1, hbuf]

theorem select_loop_first_ready (l : List select_t) :
    ∀ (chans : List chan_t) (i0 k : Nat) (hk : k < l.length),
      desc_ready chans (l.get ⟨k, hk⟩) = true →
      (∀ j (hj : j < k), desc_ready chans (l.get ⟨j, Nat.lt_trans hj hk⟩) = false) →
      select_loop chans i0 l = select_perform chans (l.get ⟨k, hk⟩) (i0 + k) := by
  induction l with
  | nil =>
      intro chans i0 k hk
      exact absurd hk (Nat.not_lt_zero k)
  | cons d rest ih =>
      intro chans i0 k hk hready hbefore
      cases k with
      | zero =>
          have hd : desc_ready chans d = true := hready
          have hstep : select_loop chans i0 (d :: rest) = select_perform chans d i0 := by
            simp [select_loop, hd]
          rw [hstep]
          rfl
      | succ k1 =>
          have hd : desc_ready chans d = false := hbefore 0 (Nat.succ_pos k1)
          have hstep : select_loop chans i0 (d :: rest) =
              select_loop chans (i0 + 1) rest := by
            simp [select_loop, hd]
          rw [hstep]
          have hk1 : k1 < rest.length := Nat.lt_of_succ_lt_succ hk
          have hrec := ih chans (i0 + 1) k1 hk1 hready
            (fun j hj => hbefore (j + 1) (Nat.succ_lt_succ hj))
          rw [hrec]
          have harith : i0 + 1 + k1 = i0 + (k1 + 1) := by omega
          rw [harith]
          rfl

theorem select_perform_when_ready (chans : List chan_t) (d : select_t) (i : Nat)
    (h : desc_ready chans d = true) :
    ∃ st cs, select_perform chans d i = SelectOutcome.ret ⟨st, i, cs⟩ := by
  cases hd : chans[d.channel]? with
  | none => simp [desc_ready, hd] at h
  | some cd =>
      obtain ⟨⟨cap, dat⟩, copen, csem⟩ := cd
      simp only [desc_ready, hd] at h
      by_cases hs : d.is_send = true
      · rw [if_pos hs] at h
        have hlt : dat.length < cap := by
          simpa [buffer_capacity, buffer_current_size] using h
        cases copen with
        | false =>
            refine ⟨chan_status.CLOSED_ERROR,
              chans.set d.channel ⟨⟨cap, dat⟩, false, csem⟩, ?_⟩
            simp [select_perform, hd, hs, channel_send]
        | true =>
            have hne : (buffer_capacity (⟨cap, dat⟩ : buffer_t) ==
                buffer_current_size (⟨cap, dat⟩ : buffer_t)) = false := by
              simp [buffer_capacity, buffer_current_size]
              omega
            have hadd : buffer_add (CVal.addrOfData i) ⟨cap, dat⟩ =
                some ⟨cap, dat ++ [CVal.addrOfData i]⟩ := by
              simp [buffer_add, hlt]
            refine ⟨chan_status.SUCCESS,
              chans.set d.channel ⟨⟨cap, dat ++ [CVal.addrOfData i]⟩, true, csem⟩, ?_⟩
            simp [select_perform, hd, hs, channel_send, send_loop, hne, send_insert, hadd]
      · rw [if_neg hs] at h
        have hpos : 0 < dat.length := by
          simpa [buffer_current_size] using h
        cases copen with
        | false =>
            refine ⟨chan_status.CLOSED_ERROR,
              chans.set d.channel ⟨⟨cap, dat⟩, false, csem⟩, ?_⟩
            simp [select_perform, hd, hs, channel_receive]
        | true =>
            cases dat with
            | nil => exact absurd hpos (by simp)
            | cons v rest =>
                refine ⟨chan_status.SUCCESS,
                  chans.set d.channel ⟨⟨cap, rest⟩, true, csem⟩, ?_⟩
                simp [select_perform, hd, hs, channel_receive, recv_loop,
                  buffer_current_size, recv_body, buffer_remove]

/-- Claim C8: whenever some descriptor is ready — a send descriptor over a
buffer with spare capacity or a receive descriptor over a non-empty buffer —
`channel_select` commits to the smallest ready list index `i`: it performs
exactly that descriptor's blocking operation and returns with
`selected_index = i`.  Applying this with `i = 0` to the same two ready
descriptors in either list order yields index 0 both times. -/
theorem select_commits_to_first_ready (chans : List chan_t) (l : List select_t)
    (i : Nat) (hi : i < l.length)
    (hready : desc_ready chans (l.get ⟨i, hi⟩) = true)
    (hbefore : ∀ j (hj : j < i), desc_ready chans (l.get ⟨j, Nat.lt_trans hj hi⟩) = false) :
    channel_select chans l =
      select_perform (select_register chans l) (l.get ⟨i, hi⟩) i ∧
    ∃ st cs, channel_select chans l = SelectOutcome.ret ⟨st, i, cs⟩ := by
  have hreg : ∀ d, desc_ready (select_register chans l) d = desc_ready chans d :=
    fun d => desc_ready_select_register chans l d
  have h1 : channel_select chans l =
      select_perform (select_register chans l) (l.get ⟨i, hi⟩) i := by
    have hloop := select_loop_first_ready l (select_register chans l) 0 i hi
      (by rw [hreg]; exact hready)
      (fun j hj => by rw [hreg]; exact hbefore j hj)
    have hz : (0 : Nat) + i = i := Nat.zero_add i
    rw [hz] at hloop
    exact hloop
  refine ⟨h1, ?_⟩
  obtain ⟨st, cs, h2⟩ := select_perform_when_ready (select_register chans l)
    (l.get ⟨i, hi⟩) i (by rw [hreg]; exact hready)
  exact ⟨st, cs, h1.trans h2⟩

/-- Witness for C8: two open empty capacity-1 channels, each under a send
descriptor; presented in either list order, select returns index 0. -/
theorem select_commits_to_first_ready_witness :
    (∃ st cs, channel_select [⟨⟨1, []⟩, true, false⟩, ⟨⟨1, []⟩, true, false⟩]
        [⟨0, true, CVal.intVal 1⟩, ⟨1, true, CVal.intVal 2⟩] =
      SelectOutcome.ret ⟨st, 0, cs⟩) ∧
    (∃ st cs, channel_select [⟨⟨1, []⟩, true, false⟩, ⟨⟨1, []⟩, true, false⟩]
        [⟨1, true, CVal.intVal 2⟩, ⟨0, true, CVal.intVal 1⟩] =
      SelectOutcome.ret ⟨st, 0, cs⟩) :=
  ⟨(select_commits_to_first_ready
      [⟨⟨1, []⟩, true, false⟩, ⟨⟨1, []⟩, true, false⟩]
      [⟨0, true, CVal.intVal 1⟩, ⟨1, true, CVal.intVal 2⟩] 0 (by decide) (by decide)
      (fun j hj => absurd hj (Nat.not_lt_zero j))).2,
   (select_commits_to_first_ready
      [⟨⟨1, []⟩, true, false⟩, ⟨⟨1, []⟩, true, false⟩]
      [⟨1, true, CVal.intVal 2⟩, ⟨0, true, CVal.intVal 1⟩] 0 (by decide) (by decide)
      (fun j hj => absurd hj (Nat.not_lt_zero j))).2⟩

theorem sendSeq_appends (vs : List CVal) :
    ∀ (cap : Nat) (dat : List CVal) (sem : Bool),
      dat.length + vs.length ≤ cap →
      sendSeq ⟨⟨cap, dat⟩, true, sem⟩ vs = some ⟨⟨cap, dat ++ vs⟩, true, sem⟩ := by
  induction vs with
  | nil =>
      intro cap dat sem h
      simp [sendSeq]
  | cons v vs ih =>
      intro cap dat sem h
      have hlt : dat.length < cap := by
        simp at h
        omega
      have hne : (buffer_capacity (⟨cap, dat⟩ : buffer_t) ==
          buffer_current_size (⟨cap, dat⟩ : buffer_t)) = false := by
        simp [buffer_capacity, buffer_current_size]
        omega
      have hsend : channel_send ⟨⟨cap, dat⟩, true, sem⟩ v true =
          SendResult.ret chan_status.SUCCESS ⟨⟨cap, dat ++ [v]⟩, true, sem⟩
            (if sem then 1 else 0) := by
        simp [channel_send, send_loop, hne, send_insert, buffer_add, hlt]
      have hrec := ih cap (dat ++ [v]) sem (by simp at h ⊢; omega)
      simp [sendSeq, hsend, hrec]

theorem recvSeq_drains (ws : List CVal) :
    ∀ (cap : Nat) (sem : Bool),
      recvSeq ⟨⟨cap, ws⟩, true, sem⟩ ws.length = some ws := by
  induction ws with
  | nil =>
      intro cap sem
      simp [recvSeq]
  | cons w ws ih =>
      intro cap sem
      have hrecv : channel_receive ⟨⟨cap, w :: ws⟩, true, sem⟩ false true =
          RecvResult.ret chan_status.SUCCESS ⟨⟨cap, ws⟩, true, sem⟩ (some w)
            (if sem then 1 else 0) := by
        simp [channel_receive, recv_loop, buffer_current_size, recv_body, buffer_remove]
      simp [recvSeq, hrecv, ih cap sem]

/-- Claim C5: FIFO delivery within one channel: starting from an open channel
with an empty buffer, any sequence of blocking sends of `vs` that fits the
capacity succeeds in full, and the following `vs.length` receives all succeed
and yield exactly `vs` in send order. -/
theorem fifo_delivery (c : chan_t) (vs : List CVal)
    (hopen : c.«open» = true) (hempty : c.buffer.data = [])
    (hcap : vs.length ≤ c.buffer.cap) :
    ∃ c1, sendSeq c vs = some c1 ∧ recvSeq c1 vs.length = some vs := by
  obtain ⟨⟨cap, dat⟩, copen, csem⟩ := c
  have hdat : dat = [] := hempty
  have hcop : copen = true := hopen
  have hc : vs.length ≤ cap := hcap
  subst hdat
  subst hcop
  refine ⟨⟨⟨cap, vs⟩, true, csem⟩, ?_, recvSeq_drains vs cap csem⟩
  have := sendSeq_appends vs cap [] csem (by simpa using hc)
  simpa using this

/-- Witness for C5: two values sent into a fresh capacity-2 channel come back
in send order. -/
theorem fifo_delivery_witness :
    ∃ c1, sendSeq ⟨⟨2, []⟩, true, false⟩ [CVal.intVal 4, CVal.intVal 9] = some c1 ∧
      recvSeq c1 2 = some [CVal.intVal 4, CVal.intVal 9] :=
  fifo_delivery ⟨⟨2, []⟩, true, false⟩ [CVal.intVal 4, CVal.intVal 9] rfl rfl
    (by decide)
